import Mathlib

/-!
Shallow embedding of the fault-injection / error-rate control core of the
Flask APM demo application (src/app.py) and proofs about it.

The mutable module state (the global request counter and the global error
rate) is an explicit `AppState` record; each HTTP handler becomes a pure
function from the state (plus the request data the handler reads) to the new
state and the response it produces.  JSON response bodies are association
lists of string keys and `JVal` values; Python floats are modelled as
rational numbers; the wall-clock timestamp and the per-request uuid are
opaque string parameters.
-/

namespace FlaskApp

/-- A JSON value as it appears in the response bodies and log records of
src/app.py: strings, numbers, booleans, string arrays and flat string
objects. -/
inductive JVal where
  | s (v : String)
  | n (v : ℚ)
  | b (v : Bool)
  | arr (vs : List String)
  | obj (fs : List (String × String))
deriving DecidableEq, Repr

/-- The process-wide mutable state of src/app.py: `request_counter`
(line 88) and `global_error_rate` (line 91). -/
structure AppState where
  request_counter : Nat
  global_error_rate : ℚ
deriving DecidableEq, Repr

/-- The initial module state: `request_counter = 0` (line 88) and
`global_error_rate = 3.0` (line 91). -/
def initialState : AppState := ⟨0, 3⟩

/-- An HTTP response: status code and JSON body (the pairs passed to
`jsonify`). -/
structure Response where
  status : Nat
  body : List (String × JVal)
deriving DecidableEq, Repr

/-- A structured log record: severity, message and the `extra` fields. -/
structure LogEvent where
  level : String
  message : String
  fields : List (String × JVal)
deriving DecidableEq, Repr

/-- A Python exception as raised by the handlers of src/app.py, carrying its
message. -/
inductive PyExn where
  | valueError (msg : String)
  | keyError (msg : String)
  | typeError (msg : String)
  | zeroDivisionError (msg : String)
  | attributeError (msg : String)
  | indexError (msg : String)
  | moduleNotFoundError (msg : String)
deriving DecidableEq, Repr

/-- `type(error).__name__` for each modelled exception class. -/
def pyExnTypeName : PyExn → String
  | .valueError _ => "ValueError"
  | .keyError _ => "KeyError"
  | .typeError _ => "TypeError"
  | .zeroDivisionError _ => "ZeroDivisionError"
  | .attributeError _ => "AttributeError"
  | .indexError _ => "IndexError"
  | .moduleNotFoundError _ => "ModuleNotFoundError"

/-- `before_request` (src/app.py lines 76-85): the log event recorded at
request start, carrying the fresh uuid as `request_id` together with the
request metadata. -/
def before_request (request_id method path remote_addr : String) : LogEvent :=
  ⟨"INFO", "Request started",
   [("request_id", .s request_id), ("method", .s method),
    ("path", .s path), ("remote_addr", .s remote_addr)]⟩

/-- `after_request` (src/app.py lines 879-890): the completion log event,
carrying the same uuid `request_id` plus the response status. -/
def after_request (request_id method path : String) (status_code : Nat)
    (content_length : ℚ) : LogEvent :=
  ⟨"INFO", "Request completed",
   [("request_id", .s request_id), ("method", .s method), ("path", .s path),
    ("status_code", .n status_code), ("content_length", .n content_length),
    ("response_time_ms", .s "calculated_by_apm")]⟩

/-- `trigger_random_errors` (src/app.py lines 93-121): given the current
error rate and the draw `random.random() * 100`, decide which simulated
exception (if any) to raise.  The thresholds are `rate / 3`,
`rate * 2 / 3` and `rate`, compared in that order. -/
def trigger_random_errors (rate draw : ℚ) : Option PyExn :=
  if draw < rate / 3 then
    some (.valueError "Simulated application error for APM testing")
  else if draw < rate * 2 / 3 then
    some (.keyError "missing_key_simulation")
  else if draw < rate then
    some (.typeError "Simulated type error for APM monitoring")
  else
    none

/-- The value found under the `error_rate` key of the posted JSON object in
`set_error_rate`: absent (so `data.get` yields the default `3.0`), a JSON
number, a non-number that Python `float()` converts (e.g. a numeric
string), or a value on which `float()` raises with the given message. -/
inductive ErrorRateField where
  | absent
  | numeric (q : ℚ)
  | convertible (q : ℚ)
  | unconvertible (errMsg : String)
deriving DecidableEq, Repr

/-- `float(data.get(..., 3.0))` (src/app.py line 752): the default applies
when the key is absent; conversion failure raises TypeError/ValueError. -/
def pyFloatField : ErrorRateField → Except String ℚ
  | .absent => .ok 3
  | .numeric q => .ok q
  | .convertible q => .ok q
  | .unconvertible m => .error m

/-- The request body seen by `set_error_rate`: a body `request.get_json()`
cannot parse (it raises BadRequest), a parsed JSON value that is not an
object (so `data.get` raises AttributeError), or a JSON object whose
`error_rate` member is described by an `ErrorRateField`. -/
inductive RequestBody where
  | unparseable (errText : String)
  | nonObject
  | jsonObject (f : ErrorRateField)
deriving DecidableEq, Repr

/-- The `errorhandler(400)` handler `bad_request` (src/app.py lines
893-904). -/
def bad_request (errText : String) : Response :=
  ⟨400, [("error", .s "Bad request"), ("message", .s errText)]⟩

/-- The `errorhandler(404)` handler `not_found` (src/app.py lines
906-917). -/
def not_found (path : String) : Response :=
  ⟨404, [("error", .s "Endpoint not found"), ("requested_path", .s path)]⟩

/-- The `errorhandler(ValueError)` handler (src/app.py lines 932-942). -/
def handle_value_error (msg : String) : Response :=
  ⟨400, [("error", .s "Value error"), ("message", .s msg)]⟩

/-- The `errorhandler(KeyError)` handler (src/app.py lines 944-954). -/
def handle_key_error (key : String) : Response :=
  ⟨400, [("error", .s "Missing required key"), ("key", .s key)]⟩

/-- The `errorhandler(Exception)` handler `handle_generic_exception`
(src/app.py lines 956-967): HTTP 500 with the generic structured body. -/
def handle_generic_exception (e : PyExn) : Response :=
  ⟨500, [("error", .s "An unexpected error occurred"),
         ("type", .s (pyExnTypeName e))]⟩

/-- How Flask routes a Python exception escaping a handler to the registered
error handlers: `ValueError` and `KeyError` have their own handlers
(src/app.py lines 932 and 944); everything else falls to the generic
`Exception` handler (line 956). -/
def dispatch_exception : PyExn → Response
  | .valueError msg => handle_value_error msg
  | .keyError msg => handle_key_error msg
  | e => handle_generic_exception e

/-- `set_error_rate` (src/app.py lines 744-797): increments the request
counter, then parses the body; a value in [0,100] replaces the stored rate
and yields 200 with the old and new values; an out-of-range value yields
400; a TypeError/ValueError from `float()` yields 400; an unparseable body
raises BadRequest, handled by the 400 handler; a non-object JSON body makes
`data.get` raise AttributeError, handled by the generic 500 handler. -/
def set_error_rate (s : AppState) (body : RequestBody) (now : String) :
    AppState × Response :=
  let c := s.request_counter + 1
  let keep : AppState := ⟨c, s.global_error_rate⟩
  match body with
  | .unparseable errText => (keep, bad_request errText)
  | .nonObject =>
      (keep, handle_generic_exception
        (.attributeError "NoneType object has no attribute get"))
  | .jsonObject f =>
      match pyFloatField f with
      | .error m =>
          (keep, ⟨400, [("status", .s "error"),
                        ("message", .s "Invalid error rate format"),
                        ("error", .s m)]⟩)
      | .ok v =>
          if 0 ≤ v ∧ v ≤ 100 then
            (⟨c, v⟩,
             ⟨200, [("status", .s "success"),
                    ("message", .s ("Error rate updated from " ++
                      toString s.global_error_rate ++ "% to " ++
                      toString v ++ "%")),
                    ("old_error_rate", .n s.global_error_rate),
                    ("new_error_rate", .n v),
                    ("request_id", .n c),
                    ("timestamp", .s now)]⟩)
          else
            (keep, ⟨400, [("status", .s "error"),
                          ("message", .s "Error rate must be between 0 and 100"),
                          ("provided_value", .n v)]⟩)

/-- `get_error_rate` (src/app.py lines 799-816): increments the request
counter and reports the current stored rate; the body's `request_id` is the
incremented counter. -/
def get_error_rate (s : AppState) (now : String) : AppState × Response :=
  let c := s.request_counter + 1
  (⟨c, s.global_error_rate⟩,
   ⟨200, [("status", .s "success"),
          ("current_error_rate", .n s.global_error_rate),
          ("request_id", .n c),
          ("timestamp", .s now)]⟩)

/-- `api_stats` (src/app.py lines 638-667): reports the total request count
and the current error rate; it does not increment the counter. -/
def api_stats (s : AppState) (now : String) : Response :=
  ⟨200, [("total_requests", .n s.request_counter),
         ("uptime", .s "Running"),
         ("timestamp", .s now),
         ("logging", .obj [("format", "JSON"),
                           ("location", "/var/log/flask-app/app.log"),
                           ("rotation", "50MB max, 5 backups")]),
         ("available_endpoints", .arr
           ["/api/fast", "/api/slow", "/api/memory-intensive",
            "/api/cpu-intensive", "/api/error-random", "/api/external-call",
            "/api/database-simulation", "/api/chain-calls", "/api/crash-test",
            "/api/security-error", "/api/security-input"]),
         ("error_control_endpoints", .arr
           ["/api/set-error-rate", "/api/get-error-rate"]),
         ("current_error_rate", .s (toString s.global_error_rate ++ "%"))]⟩

/-- The security error variant drawn by `random.choice` in `security_error`
(src/app.py line 856). -/
inductive SecurityErrorType where
  | auth_failure
  | permission_denied
  | token_expired
  | invalid_credentials
deriving DecidableEq, Repr

/-- `security_error` (src/app.py lines 850-877): increments the request
counter and answers 401 or 403 with an error/code body. -/
def security_error (s : AppState) (e : SecurityErrorType) :
    AppState × Response :=
  (⟨s.request_counter + 1, s.global_error_rate⟩,
   match e with
   | .auth_failure =>
       ⟨401, [("error", .s "Authentication failed"),
              ("code", .s "AUTH_FAILED")]⟩
   | .permission_denied =>
       ⟨403, [("error", .s "Access denied"),
              ("code", .s "PERMISSION_DENIED")]⟩
   | .token_expired =>
       ⟨401, [("error", .s "Access token expired"),
              ("code", .s "TOKEN_EXPIRED")]⟩
   | .invalid_credentials =>
       ⟨401, [("error", .s "Invalid credentials provided"),
              ("code", .s "INVALID_CREDS")]⟩)

/-- The crash variant drawn by `random.choice` in `crash_test`
(src/app.py line 824). -/
inductive CrashType where
  | division_by_zero
  | null_reference
  | index_error
  | attribute_error
  | import_error
deriving DecidableEq, Repr

/-- `crash_test` (src/app.py lines 818-848): increments the request counter
and raises the exception corresponding to the drawn crash variant. -/
def crash_test (s : AppState) (c : CrashType) : AppState × PyExn :=
  (⟨s.request_counter + 1, s.global_error_rate⟩,
   match c with
   | .division_by_zero => .zeroDivisionError "division by zero"
   | .null_reference =>
       .attributeError "NoneType object has no attribute some_attribute"
   | .index_error => .indexError "list index out of range"
   | .attribute_error =>
       .attributeError "str object has no attribute nonexistent_method"
   | .import_error => .moduleNotFoundError "No module named nonexistent_module")

/-- The list `random.choice` draws from in `random_error`
(src/app.py line 385). -/
def random_error_choices : List String :=
  ["success", "400", "404", "500", "timeout"]

/-- `random_error` (src/app.py lines 378-405): increments the request
counter and maps the drawn alternative to its response; a string outside the
choice list matches no branch (the Python function would return None). -/
def random_error (s : AppState) (choice : String) (now : String) :
    AppState × Option Response :=
  let c := s.request_counter + 1
  let s1 : AppState := ⟨c, s.global_error_rate⟩
  if choice = "success" then
    (s1, some ⟨200, [("message", .s "Lucky! No error this time"),
                     ("request_id", .n c), ("timestamp", .s now)]⟩)
  else if choice = "400" then
    (s1, some ⟨400, [("error", .s "Bad Request - Simulated client error")]⟩)
  else if choice = "404" then
    (s1, some ⟨404, [("error", .s "Not Found - Simulated not found error")]⟩)
  else if choice = "500" then
    (s1, some ⟨500, [("error", .s "Internal Server Error - Simulated server error")]⟩)
  else if choice = "timeout" then
    (s1, some ⟨504, [("error", .s "Request timed out")]⟩)
  else
    (s1, none)

/-- C8: at process start, before any call to set-error-rate, the stored
global error rate is the documented default 3.0 and get-error-rate reports
exactly that value with HTTP 200. -/
theorem C8_initial_error_rate (now : String) :
    initialState.global_error_rate = 3 ∧
    (get_error_rate initialState now).2.status = 200 ∧
    (get_error_rate initialState now).2.body.lookup "current_error_rate" =
      some (.n 3) := by
  exact ⟨rfl, rfl, rfl⟩

/-- C9: when the global error rate is 0, trigger_random_errors raises no
simulated error for any nonnegative draw: every branch threshold is 0 and
the draw is at least 0. -/
theorem C9_zero_rate_never_errors (d : ℚ) (hd : 0 ≤ d) :
    trigger_random_errors 0 d = none := by
  unfold trigger_random_errors
  split_ifs with h1 h2 h3
  · exact absurd h1 (by norm_num; linarith)
  · exact absurd h2 (by norm_num; linarith)
  · exact absurd h3 (by linarith)
  · rfl

/-- C9 witness: at rate 0 the concrete draw 50 yields no simulated error. -/
theorem C9_zero_rate_never_errors_witness :
    trigger_random_errors 0 50 = none :=
  C9_zero_rate_never_errors 50 (by norm_num)

/-- C10: a JSON object body without the error_rate key is not rejected: the
default 3.0 is used, the response is HTTP 200, and the stored global error
rate is overwritten with 3.0. -/
theorem C10_missing_key_resets_default (s : AppState) (now : String) :
    (set_error_rate s (.jsonObject .absent) now).2.status = 200 ∧
    (set_error_rate s (.jsonObject .absent) now).1.global_error_rate = 3 ∧
    (set_error_rate s (.jsonObject .absent) now).2.body.lookup
      "new_error_rate" = some (.n 3) := by
  exact ⟨rfl, rfl, rfl⟩

/-- C6: every crash-test fault variant raises an exception handled by the
generic exception handler, so the response is HTTP 500 with the structured
generic error body naming the exception type. -/
theorem C6_crash_test_always_500 (s : AppState) (c : CrashType) :
    dispatch_exception (crash_test s c).2 =
      handle_generic_exception (crash_test s c).2 ∧
    (dispatch_exception (crash_test s c).2).status = 500 ∧
    (dispatch_exception (crash_test s c).2).body.lookup "error" =
      some (.s "An unexpected error occurred") ∧
    (dispatch_exception (crash_test s c).2).body.lookup "type" =
      some (.s (pyExnTypeName (crash_test s c).2)) := by
  cases c <;>
    simp [crash_test, dispatch_exception, handle_generic_exception,
      pyExnTypeName, List.lookup]

/-- C7: the error-random endpoint draws uniformly from exactly five
alternatives (each occurs once in the five-element choice list, so each has
probability 1/5 under a uniform draw) and maps them, in order, to the
statuses 200, 400, 404, 500 and 504. -/
theorem C7_random_error_uniform_five (s : AppState) (now : String) :
    random_error_choices.length = 5 ∧
    random_error_choices.Nodup ∧
    random_error_choices.count "success" = 1 ∧
    random_error_choices.count "400" = 1 ∧
    random_error_choices.count "404" = 1 ∧
    random_error_choices.count "500" = 1 ∧
    random_error_choices.count "timeout" = 1 ∧
    random_error_choices.map
        (fun ch => ((random_error s ch now).2).map Response.status) =
      [some 200, some 400, some 404, some 500, some 504] := by
  refine ⟨by decide, by decide, by decide, by decide, by decide, by decide,
    by decide, ?_⟩
  simp [random_error_choices, random_error]

/-- C1: for every v in [0,100], set-error-rate stores exactly v, a following
get-error-rate reports exactly v, and the read leaves the stored rate
untouched. -/
theorem C1_set_then_get (s : AppState) (v : ℚ) (now now2 : String)
    (h0 : 0 ≤ v) (h1 : v ≤ 100) :
    (set_error_rate s (.jsonObject (.numeric v)) now).1.global_error_rate = v ∧
    (get_error_rate (set_error_rate s (.jsonObject (.numeric v)) now).1
        now2).2.body.lookup "current_error_rate" = some (.n v) ∧
    (get_error_rate (set_error_rate s (.jsonObject (.numeric v)) now).1
        now2).1.global_error_rate =
      (set_error_rate s (.jsonObject (.numeric v)) now).1.global_error_rate := by
  have hin : (0 ≤ v ∧ v ≤ 100) = True := by simp [h0, h1]
  refine ⟨?_, ?_, ?_⟩ <;>
    simp [set_error_rate, get_error_rate, pyFloatField, hin] <;> rfl

/-- C1 witness: setting 42 then reading it back returns exactly 42. -/
theorem C1_set_then_get_witness :
    (set_error_rate initialState (.jsonObject (.numeric 42)) "t1").1.global_error_rate = 42 ∧
    (get_error_rate (set_error_rate initialState (.jsonObject (.numeric 42)) "t1").1
        "t2").2.body.lookup "current_error_rate" = some (.n 42) ∧
    (get_error_rate (set_error_rate initialState (.jsonObject (.numeric 42)) "t1").1
        "t2").1.global_error_rate =
      (set_error_rate initialState (.jsonObject (.numeric 42)) "t1").1.global_error_rate :=
  C1_set_then_get initialState 42 "t1" "t2" (by norm_num) (by norm_num)

/-- C4 counterexample: rejecting the out-of-range value 150 does change
observable state: the request counter increments, which /api/stats exposes
as total_requests. -/
theorem C4_counterexample_counter_changes :
    (set_error_rate initialState (.jsonObject (.numeric 150)) "t").2.status = 400 ∧
    (set_error_rate initialState (.jsonObject (.numeric 150)) "t").1.global_error_rate =
      initialState.global_error_rate ∧
    (set_error_rate initialState (.jsonObject (.numeric 150)) "t").1.request_counter ≠
      initialState.request_counter ∧
    (api_stats (set_error_rate initialState (.jsonObject (.numeric 150)) "t").1
        "t").body.lookup "total_requests" ≠
      (api_stats initialState "t").body.lookup "total_requests" := by
  refine ⟨rfl, rfl, by decide, ?_⟩
  norm_num [set_error_rate, api_stats, initialState, pyFloatField, List.lookup]

/-- C4 (amended): for every value outside [0,100], set-error-rate answers
400 and keeps the stored rate unchanged, but it still increments the global
request counter by one (observable through /api/stats), as it does on every
call. -/
theorem C4_out_of_range_rejected (s : AppState) (v : ℚ) (now : String)
    (hv : v < 0 ∨ 100 < v) :
    (set_error_rate s (.jsonObject (.numeric v)) now).2.status = 400 ∧
    (set_error_rate s (.jsonObject (.numeric v)) now).1.global_error_rate =
      s.global_error_rate ∧
    (set_error_rate s (.jsonObject (.numeric v)) now).1.request_counter =
      s.request_counter + 1 := by
  have hout : ¬ (0 ≤ v ∧ v ≤ 100) := by
    rintro ⟨ha, hb⟩
    rcases hv with h | h <;> linarith
  refine ⟨?_, ?_, ?_⟩ <;>
    simp [set_error_rate, pyFloatField, hout]

/-- C4 witness: the concrete out-of-range value 150 is rejected with 400,
the rate keeps its value and the counter increments. -/
theorem C4_out_of_range_rejected_witness :
    (set_error_rate initialState (.jsonObject (.numeric 150)) "t").2.status = 400 ∧
    (set_error_rate initialState (.jsonObject (.numeric 150)) "t").1.global_error_rate =
      initialState.global_error_rate ∧
    (set_error_rate initialState (.jsonObject (.numeric 150)) "t").1.request_counter =
      initialState.request_counter + 1 :=
  C4_out_of_range_rejected initialState 150 "t" (Or.inr (by norm_num))

/-- C5 counterexample: a well-formed JSON object with no error_rate key has
no numeric error_rate in [0,100], yet the response is 200, not the 400 the
claim requires for that case. -/
theorem C5_counterexample_missing_key_200 :
    (set_error_rate initialState (.jsonObject .absent) "t").2.status = 200 ∧
    (set_error_rate initialState (.jsonObject .absent) "t").2.status ≠ 400 := by
  exact ⟨rfl, by decide⟩

/-- C5 (amended): for POST /api/set-error-rate: a body whose error_rate
converts to a number in [0,100] yields 200 with the old and new values in
the body (a missing key defaults to 3.0 and also yields 200); a converted
value outside [0,100] yields 400; a value float() cannot convert yields
400; an unparseable body yields 400 via the BadRequest handler; a JSON body
that is not an object yields 500 via the generic exception handler. -/
theorem C5_set_error_rate_case_analysis (s : AppState) (now m : String) (v : ℚ) :
    (0 ≤ v → v ≤ 100 →
      (set_error_rate s (.jsonObject (.numeric v)) now).2.status = 200 ∧
      (set_error_rate s (.jsonObject (.numeric v)) now).2.body.lookup
        "old_error_rate" = some (.n s.global_error_rate) ∧
      (set_error_rate s (.jsonObject (.numeric v)) now).2.body.lookup
        "new_error_rate" = some (.n v)) ∧
    (v < 0 ∨ 100 < v →
      (set_error_rate s (.jsonObject (.numeric v)) now).2.status = 400) ∧
    (set_error_rate s (.jsonObject (.unconvertible m)) now).2.status = 400 ∧
    (set_error_rate s (.unparseable m) now).2.status = 400 ∧
    (set_error_rate s .nonObject now).2.status = 500 ∧
    (set_error_rate s (.jsonObject .absent) now).2.status = 200 := by
  refine ⟨?_, ?_, rfl, rfl, rfl, rfl⟩
  · intro h0 h1
    have hin : (0 ≤ v ∧ v ≤ 100) = True := by simp [h0, h1]
    refine ⟨?_, ?_, ?_⟩ <;> simp [set_error_rate, pyFloatField, hin] <;> rfl
  · intro hv
    have hout : ¬ (0 ≤ v ∧ v ≤ 100) := by
      rintro ⟨ha, hb⟩
      rcases hv with h | h <;> linarith
    simp [set_error_rate, pyFloatField, hout]

/-- C2 counterexample: the /api/security-error response body contains
neither a request_id nor a timestamp, so not every response body carries a
correlation id and an ISO-8601 timestamp. -/
theorem C2_counterexample_security_error_body :
    (security_error initialState .auth_failure).2.body.lookup "request_id" =
      none ∧
    (security_error initialState .auth_failure).2.body.lookup "timestamp" =
      none := by
  exact ⟨rfl, rfl⟩

/-- C2 (amended): the before_request and after_request log events carry the
per-request uuid string as request_id; response bodies that do include a
request_id and timestamp (e.g. get-error-rate) carry the numeric global
request counter as request_id, which is never equal to the uuid string
value in those log events; and the security-error response bodies contain
neither a request_id nor a timestamp. -/
theorem C2_correlation_id_partial (uuid method path remote now : String)
    (s : AppState) (e : SecurityErrorType) (st : Nat) (cl : ℚ) :
    (before_request uuid method path remote).fields.lookup "request_id" =
      some (.s uuid) ∧
    (after_request uuid method path st cl).fields.lookup "request_id" =
      some (.s uuid) ∧
    (get_error_rate s now).2.body.lookup "request_id" =
      some (.n (s.request_counter + 1)) ∧
    (get_error_rate s now).2.body.lookup "timestamp" = some (.s now) ∧
    (security_error s e).2.body.lookup "request_id" = none ∧
    (security_error s e).2.body.lookup "timestamp" = none ∧
    (∀ q : ℚ, ∀ u : String, JVal.n q ≠ JVal.s u) := by
  refine ⟨rfl, rfl, ?_, rfl, ?_, ?_, fun q u h => by cases h⟩
  · simp [get_error_rate, List.lookup]
  · cases e <;> rfl
  · cases e <;> rfl

/-- C3: for any two positive rates at most 100, trigger_random_errors
classifies a draw in [0,100) by the intervals [0, r/3), [r/3, 2r/3) and
[2r/3, r) for ValueError, KeyError and TypeError respectively, and the
three interval lengths keep a fixed ratio as the rate changes: every
cross-product of lengths between rate r1 and rate r2 agrees. -/
theorem C3_error_kind_ratio_fixed (r1 r2 : ℚ) (h1 : 0 < r1) (h1c : r1 ≤ 100)
    (h2 : 0 < r2) (h2c : r2 ≤ 100) :
    (∀ d : ℚ, 0 ≤ d → d < 100 →
      (trigger_random_errors r1 d =
          some (.valueError "Simulated application error for APM testing") ↔
        0 ≤ d ∧ d < r1 / 3) ∧
      (trigger_random_errors r1 d = some (.keyError "missing_key_simulation") ↔
        r1 / 3 ≤ d ∧ d < r1 * 2 / 3) ∧
      (trigger_random_errors r1 d =
          some (.typeError "Simulated type error for APM monitoring") ↔
        r1 * 2 / 3 ≤ d ∧ d < r1)) ∧
    (r1 / 3 - 0) * (r2 * 2 / 3 - r2 / 3) =
      (r1 * 2 / 3 - r1 / 3) * (r2 / 3 - 0) ∧
    (r1 / 3 - 0) * (r2 - r2 * 2 / 3) = (r1 - r1 * 2 / 3) * (r2 / 3 - 0) ∧
    (r1 * 2 / 3 - r1 / 3) * (r2 - r2 * 2 / 3) =
      (r1 - r1 * 2 / 3) * (r2 * 2 / 3 - r2 / 3) := by
  refine ⟨?_, by ring, by ring, by ring⟩
  intro d hd0 _
  unfold trigger_random_errors
  split_ifs with hA hB hC
  · refine ⟨iff_of_true rfl ⟨hd0, hA⟩, iff_of_false (by simp) ?_, ?_⟩
    · rintro ⟨hge, _⟩
      linarith
    · refine iff_of_false (by simp) ?_
      rintro ⟨hge, _⟩
      linarith
  · refine ⟨iff_of_false (by simp) ?_, iff_of_true rfl ⟨by linarith, hB⟩, ?_⟩
    · rintro ⟨_, hlt⟩
      exact hA hlt
    · refine iff_of_false (by simp) ?_
      rintro ⟨hge, _⟩
      linarith
  · refine ⟨iff_of_false (by simp) ?_, iff_of_false (by simp) ?_,
      iff_of_true rfl ⟨by linarith, hC⟩⟩
    · rintro ⟨_, hlt⟩
      exact hA hlt
    · rintro ⟨_, hlt⟩
      exact hB hlt
  · refine ⟨iff_of_false (by simp) ?_, iff_of_false (by simp) ?_,
      iff_of_false (by simp) ?_⟩
    · rintro ⟨_, hlt⟩
      exact hA hlt
    · rintro ⟨_, hlt⟩
      exact hB hlt
    · rintro ⟨_, hlt⟩
      exact hC hlt

/-- C3 witness: the ratio statement instantiated at the concrete rates 3
and 60. -/
theorem C3_error_kind_ratio_fixed_witness :
    (∀ d : ℚ, 0 ≤ d → d < 100 →
      (trigger_random_errors 3 d =
          some (.valueError "Simulated application error for APM testing") ↔
        0 ≤ d ∧ d < 3 / 3) ∧
      (trigger_random_errors 3 d = some (.keyError "missing_key_simulation") ↔
        3 / 3 ≤ d ∧ d < 3 * 2 / 3) ∧
      (trigger_random_errors 3 d =
          some (.typeError "Simulated type error for APM monitoring") ↔
        3 * 2 / 3 ≤ d ∧ d < 3)) ∧
    ((3 : ℚ) / 3 - 0) * (60 * 2 / 3 - 60 / 3) =
      (3 * 2 / 3 - 3 / 3) * (60 / 3 - 0) ∧
    ((3 : ℚ) / 3 - 0) * (60 - 60 * 2 / 3) = (3 - 3 * 2 / 3) * (60 / 3 - 0) ∧
    ((3 : ℚ) * 2 / 3 - 3 / 3) * (60 - 60 * 2 / 3) =
      (3 - 3 * 2 / 3) * (60 * 2 / 3 - 60 / 3) :=
  C3_error_kind_ratio_fixed 3 60 (by norm_num) (by norm_num) (by norm_num)
    (by norm_num)

end FlaskApp
